import Mathlib

/-!
# Verification of the voice capture / transcription pipeline

Shallow embedding of the `VoiceInput` component family of this repository
(`src/client/src/components/ui/voice-input.tsx` and the unnamed variants
`src/unnamed/part_000`, `src/unnamed/part_001`) together with theorems
settling the frozen claims about the capture session, the batch
transcription path, the streaming message handler, the silence gate and
the PCM resampler described by the specification.

Conventions of the embedding:
* JS strings are Lean `String`s; `text.trim()` is modelled by `jsTrim`.
* The `Uint8Array` frequency data of the analyser is a `List Nat`
  (byte values), an analysis frame per 100 ms interval tick.
* Blob sizes are `Nat`s; a blob built from chunks has the sum of their sizes.
* The `fetch` of the batch path is modelled by an `HttpResponse` value
  describing what the server answers; whether the request was issued at
  all is tracked explicitly.
* Callback deliveries (`onTranscript`, the optional interim callback) are
  modelled as lists of delivered strings, in delivery order.
-/

/-- Whitespace predicate backing the model of JS `String.prototype.trim`
(the characters relevant to this code base: space, tab, LF, CR). -/
def isWsChar (c : Char) : Bool :=
  c = ' ' || c = '\t' || c = '\n' || c = '\r'

/-- Trim characters from both ends of a character list: drop the
whitespace prefix, then the whitespace suffix. -/
def trimChars (l : List Char) : List Char :=
  (l.dropWhile isWsChar).rdropWhile isWsChar

/-- Model of JS `s.trim()` as used by the transcription handlers. -/
def jsTrim (s : String) : String :=
  String.mk (trimChars s.data)

theorem dropWhile_trimChars (l : List Char) :
    (trimChars l).dropWhile isWsChar = trimChars l := by
  unfold trimChars
  rcases hB : (l.dropWhile isWsChar).rdropWhile isWsChar with _ | ⟨b, bs⟩
  · simp
  · have hpre := List.rdropWhile_prefix isWsChar (l.dropWhile isWsChar)
    rw [hB] at hpre
    obtain ⟨u, hu⟩ := hpre
    have h0 : l.dropWhile isWsChar = b :: (bs ++ u) := by
      rw [← hu]; simp
    have hb := List.head?_dropWhile_not isWsChar l
    rw [h0] at hb
    simp only [List.head?_cons] at hb
    rw [List.dropWhile_cons_of_neg]
    simp [hb]

theorem trimChars_idem (l : List Char) : trimChars (trimChars l) = trimChars l := by
  rw [show trimChars (trimChars l)
        = ((trimChars l).dropWhile isWsChar).rdropWhile isWsChar from rfl,
      dropWhile_trimChars l,
      show trimChars l = (l.dropWhile isWsChar).rdropWhile isWsChar from rfl]
  exact List.rdropWhile_idempotent isWsChar _

theorem jsTrim_idem (s : String) : jsTrim (jsTrim s) = jsTrim s :=
  congrArg String.mk (trimChars_idem s.data)

/-! ## Streaming transport: inbound message handling

`voice-input.tsx` (streaming variant), `socket.onmessage` (L78-85):
```
socket.onmessage = (event) => {
  const data = JSON.parse(event.data);
  if (data.message_type === 'FinalTranscript' && data.text) {
    onTranscript(data.text);
  }
};
```
The component's props (L6-11) expose a single transcript callback
`onTranscript`; there is no partial-text callback in this variant, so a
`PartialTranscript` message invokes nothing.
-/

/-- A parsed inbound WebSocket message `{message_type, text}`. -/
structure StreamMsg where
  message_type : String
  text : String
deriving DecidableEq

/-- Callback deliveries made to the consumer, in order: interim
(partial-text) deliveries and final-text (`onTranscript`) deliveries.
The final-text list is the accumulated final text of the session. -/
structure StreamDelivered where
  interimTexts : List String
  finalTexts : List String
deriving DecidableEq

/-- Handler `socket.onmessage` of the streaming variant: a `FinalTranscript`
message with truthy (nonempty) `text` delivers `onTranscript(text)`;
every other message (in particular `PartialTranscript`) delivers
nothing. -/
def socketOnMessage (s : StreamDelivered) (m : StreamMsg) : StreamDelivered :=
  if m.message_type = "FinalTranscript" ∧ m.text ≠ "" then
    { s with finalTexts := s.finalTexts ++ [m.text] }
  else s

/-- Process a sequence of inbound messages in arrival order. -/
def runMessages (s : StreamDelivered) (ms : List StreamMsg) : StreamDelivered :=
  ms.foldl socketOnMessage s

/-! ## Batch transport: silence gate and `onstop` handler

`voice-input.tsx` (batch variant):
* `checkAudioLevel` (L256-262): averages the analyser's byte frequency
  data and latches `hasAudio` once the average exceeds `10`.
* `mediaRecorder.ondataavailable` (L266-270): keeps only chunks whose
  blob size exceeds `1000` bytes.
* `mediaRecorder.onstop` (L272-320): rejects with
  `'No speech detected. Please try again.'` when the latch is unset or no
  chunks were kept; rejects with `'Recording too short. Please speak
  longer.'` when the accumulated blob is under `2000` bytes; otherwise
  issues the one transcription POST and handles its response.
-/

/-- Average of one analyser frame, `dataArray.reduce((a,b)=>a+b)/length`
computed in JS number arithmetic, modelled exactly over `ℚ`
(written with `mkRat` so the kernel can evaluate it; see
`averageLevel_eq_div`). -/
def averageLevel (d : List Nat) : ℚ :=
  mkRat d.sum d.length

theorem averageLevel_eq_div (d : List Nat) :
    averageLevel d = (d.sum : ℚ) / (d.length : ℚ) := by
  rw [averageLevel, Rat.mkRat_eq_div, Int.cast_natCast]

/-- The `hasAudio` latch: true iff some sampled frame's average exceeded
the threshold `10` during the session. -/
def hasAudio (frames : List (List Nat)) : Bool :=
  frames.any fun d => decide ((10 : ℚ) < averageLevel d)

/-- Handler `mediaRecorder.ondataavailable`: only chunks over 1000 bytes are
pushed onto `audioChunksRef`. -/
def keptChunks (sizes : List Nat) : List Nat :=
  sizes.filter fun n => decide (1000 < n)

/-- Size of `new Blob(audioChunksRef.current)`: the sum of the chunk sizes. -/
def blobSize (chunkSizes : List Nat) : Nat := chunkSizes.sum

/-- The transcription server's answer to the batch POST:
`ok text` models a 2xx response whose JSON carries `text` (the empty
string doubles for an absent/empty field, which JS treats as falsy);
`err e` models a non-ok response whose JSON error field is `e`. -/
inductive HttpResponse
  | ok (text : String)
  | err (errorField : Option String)
deriving DecidableEq

/-- Handling of the awaited response inside `onstop` (L301-319):
a non-ok response throws `errorData.error || 'Transcription failed'`,
caught and surfaced via `setError`; an ok response delivers
`onTranscript(text.trim())` iff `text && text.trim()` is truthy and
otherwise sets `'No speech detected in recording'`.
Returns `(error set, final texts delivered)`. -/
def respDeliver (r : HttpResponse) : Option String × List String :=
  match r with
  | .err e => (some (e.getD "Transcription failed"), [])
  | .ok text =>
    if text ≠ "" ∧ jsTrim text ≠ "" then (none, [jsTrim text])
    else (some "No speech detected in recording", [])

/-- Consumer-visible outcome of one run of the batch `onstop` handler. -/
structure BatchResult where
  error : Option String
  finalTexts : List String
  httpIssued : Bool
deriving DecidableEq

/-- Handler `mediaRecorder.onstop` of the batch variant (L272-320), as a function
of the `hasAudio` latch value, the kept chunk sizes, and the response
the server would give if the POST is issued. `httpIssued` records
whether control reached the `fetch`. -/
def mediaRecorderOnStop (hasAudioFlag : Bool) (chunkSizes : List Nat)
    (r : HttpResponse) : BatchResult :=
  if hasAudioFlag = false ∨ chunkSizes = [] then
    { error := some "No speech detected. Please try again.",
      finalTexts := [], httpIssued := false }
  else if blobSize chunkSizes < 2000 then
    { error := some "Recording too short. Please speak longer.",
      finalTexts := [], httpIssued := false }
  else
    let d := respDeliver r
    { error := d.1, finalTexts := d.2, httpIssued := true }

/-! ## Capture session state: `stopRecording` and the in-flight response

`voice-input.tsx`, `stopRecording` (identical in the streaming variant
L29-42 and in the batch variant L204-217):
```
const stopRecording = () => {
  if (mediaRecorderRef.current && mediaRecorderRef.current.state !== 'inactive') {
    mediaRecorderRef.current.stop();
  }
  if (streamRef.current) { ...; streamRef.current = null; }
  if (socketRef.current) { socketRef.current.close(); socketRef.current = null; }
  setIsListening(false);
};
```
It stops the recorder, releases the stream and socket, and clears the
listening flag. It reads and writes nothing about a transcription
request already in flight: the awaited `fetch` continuation inside
`onstop` is guarded only by the response content.

`part_000`'s `stopRecording` (L33-64) additionally finalizes
`currentTranscript` through `onTranscript(currentTranscript.trim())`
when its trim is nonempty, then clears it.
-/

/-- The mutable session fields owned by one `VoiceInput` instance,
plus the delivered callbacks. `requestInFlight` records a pending
transcription `fetch` whose continuation has not run yet. -/
structure SessionState where
  recorderInactive : Bool
  streamLive : Bool
  socketLive : Bool
  listening : Bool
  requestInFlight : Bool
  currentTranscript : String
  finalTexts : List String
  error : Option String
deriving DecidableEq

/-- Function `stopRecording` of `voice-input.tsx` (streaming variant L29-42 and
batch variant L204-217): each guarded teardown step, then
`setIsListening(false)`. No callback is invoked and the pending request
(if any) is untouched. -/
def stopRecording (s : SessionState) : SessionState :=
  let s1 := if s.recorderInactive = false then { s with recorderInactive := true } else s
  let s2 := if s1.streamLive then { s1 with streamLive := false } else s1
  let s3 := if s2.socketLive then { s2 with socketLive := false } else s2
  { s3 with listening := false }

/-- Function `stopRecording` of `part_000` (L33-64): the same teardown, followed by
the finalize step `if (currentTranscript.trim()) onTranscript(...)` and
`setCurrentTranscript('')`. -/
def stopRecordingP0 (s : SessionState) : SessionState :=
  let s4 := stopRecording s
  if jsTrim s4.currentTranscript ≠ "" then
    { s4 with finalTexts := s4.finalTexts ++ [jsTrim s4.currentTranscript],
              currentTranscript := "" }
  else
    { s4 with currentTranscript := "" }

/-- Arrival of the batch transcription response: the continuation after
`await fetch(...)` inside `onstop` (L301-319). A continuation only runs
for a request actually in flight (promise semantics); the code itself
consults nothing that `stopRecording` writes, so delivery depends only
on the response content. -/
def resolveResponse (s : SessionState) (r : HttpResponse) : SessionState :=
  if s.requestInFlight then
    let d := respDeliver r
    { s with requestInFlight := false,
             finalTexts := s.finalTexts ++ d.2,
             error := d.1 }
  else s

/-- Externally visible events acting on a live batch session. -/
inductive SessionEv
  | stopCapture
  | respond (r : HttpResponse)
deriving DecidableEq

def sessionStep (s : SessionState) (e : SessionEv) : SessionState :=
  match e with
  | .stopCapture => stopRecording s
  | .respond r => resolveResponse s r

def runSession (s : SessionState) (evs : List SessionEv) : SessionState :=
  evs.foldl sessionStep s

/-! ## Streaming transport: outbound frame guard

`voice-input.tsx` (streaming variant), `mediaRecorder.ondataavailable`
(L104-117): a produced blob is encoded and sent only under the guard
`event.data.size > 0 && socket.readyState === WebSocket.OPEN`. The
socket is closed by `stopRecording` (explicit stop) and by the
`onerror` path (which calls `stopRecording`).
-/

/-- States of `WebSocket.readyState`. -/
inductive WsReady
  | connecting
  | opened
  | closing
  | closed
deriving DecidableEq

/-- The channel plus the frames actually sent over it (their sizes, in
send order). -/
structure WsState where
  readyState : WsReady
  sentSizes : List Nat
deriving DecidableEq

/-- Events of the streaming capture loop touching the channel:
the open handshake completing, an explicit close, a channel failure
(`onerror` → `stopRecording` → `socket.close()`), and the recorder
producing a data blob of a given size. -/
inductive WsEv
  | opens
  | closes
  | fails
  | frame (size : Nat)
deriving DecidableEq

/-- One step of the channel model. The `frame` case is
`mediaRecorder.ondataavailable` (L104-117): send only when the blob is
nonempty and the socket is OPEN. -/
def wsStep (s : WsState) (e : WsEv) : WsState :=
  match e with
  | .opens => { s with readyState := .opened }
  | .closes => { s with readyState := .closed }
  | .fails => { s with readyState := .closed }
  | .frame n =>
    if 0 < n ∧ s.readyState = .opened then
      { s with sentSizes := s.sentSizes ++ [n] }
    else s

def runWs (s : WsState) (evs : List WsEv) : WsState :=
  evs.foldl wsStep s

/-! ## PCM resampler (spec §4.2)

`src/` contains no Float32→Int16 resampler: every variant in the
repository encodes through `MediaRecorder` (`audio/webm;codecs=opus`),
and the `ScriptProcessorNode` ref in `part_000` is never used. The
definitions below are therefore the spec's words, not a source
translation, and the resampler claim is settled against them.
-/

/-- Modelled from the spec: clamping of a float sample to the range
[-1.0, 1.0] before scaling (spec §4.2); samples are modelled exactly
over `ℚ`. -/
def clampUnit (x : ℚ) : ℚ := max (-1) (min 1 x)

/-- Modelled from the spec: quantization of a clamped sample to a
16-bit signed integer by scaling with 32767 (spec §4.2). -/
def toPcm16 (x : ℚ) : Int := ⌊clampUnit x * 32767⌋

/-- Modelled from the spec: nearest-sample decimation index map, output
index `i` reads input index `floor(i × inputRate / outputRate)`
(spec §4.2). -/
def srcIndex (inputRate outputRate i : Nat) : Nat :=
  i * inputRate / outputRate

/-- Modelled from the spec: the PCM resampler (spec §4.2), producing
`floor(N × outputRate / inputRate)` samples, each read from the
decimation index and quantized by `toPcm16`. -/
def resample (inputRate outputRate : Nat) (input : List ℚ) : List Int :=
  (List.range (input.length * outputRate / inputRate)).map
    fun i => toPcm16 (input.getD (srcIndex inputRate outputRate i) 0)

/-! ## Claim theorems -/

/-- C1: for every batch capture session whose running energy estimate
never crosses the speech threshold (10) before stop, the `onstop`
handler reports the no-speech error (`NoSpeechDetected`) and never
reaches the transcription `fetch`: no HTTP request is issued. -/
theorem C1_noSpeech_noHttp (frames : List (List Nat)) (chunkSizes : List Nat)
    (r : HttpResponse) (h : ∀ d ∈ frames, averageLevel d ≤ 10) :
    mediaRecorderOnStop (hasAudio frames) chunkSizes r =
      { error := some "No speech detected. Please try again.",
        finalTexts := [], httpIssued := false } := by
  have hfa : hasAudio frames = false := by
    simp only [hasAudio, List.any_eq_false, decide_eq_true_eq, not_lt]
    exact h
  rw [mediaRecorderOnStop, if_pos (Or.inl hfa)]

theorem C1_witness :
    (∀ d ∈ [[0, 5], [10]], averageLevel d ≤ 10) ∧
    mediaRecorderOnStop (hasAudio [[0, 5], [10]]) [1500] (.ok "hello") =
      { error := some "No speech detected. Please try again.",
        finalTexts := [], httpIssued := false } :=
  ⟨by decide, C1_noSpeech_noHttp [[0, 5], [10]] [1500] (.ok "hello") (by decide)⟩

/-- C8: a batch session that passed the energy gate (`hasAudio` latched,
some chunks kept) but whose accumulated blob is under the 2000-byte
minimum reports the too-short error (`RecordingTooShort`) and issues no
HTTP request: the size check is a second, independent gate applied
after the energy gate. -/
theorem C8_tooShort_noHttp (frames : List (List Nat)) (chunkSizes : List Nat)
    (r : HttpResponse) (hs : hasAudio frames = true) (hne : chunkSizes ≠ [])
    (hsize : blobSize chunkSizes < 2000) :
    mediaRecorderOnStop (hasAudio frames) chunkSizes r =
      { error := some "Recording too short. Please speak longer.",
        finalTexts := [], httpIssued := false } := by
  have hcond : ¬ (hasAudio frames = false ∨ chunkSizes = []) := by
    rintro (h | h)
    · rw [hs] at h; exact absurd h (by simp)
    · exact hne h
  rw [mediaRecorderOnStop, if_neg hcond, if_pos hsize]

theorem C8_witness :
    (hasAudio [[255]] = true ∧ ([1500] : List Nat) ≠ [] ∧ blobSize [1500] < 2000) ∧
    mediaRecorderOnStop (hasAudio [[255]]) [1500] (.err none) =
      { error := some "Recording too short. Please speak longer.",
        finalTexts := [], httpIssued := false } :=
  ⟨⟨by decide, by decide, by decide⟩,
   C8_tooShort_noHttp [[255]] [1500] (.err none) (by decide) (by decide) (by decide)⟩

/-- C7: on the batch path, once both gates passed, the one HTTP request
is issued and (a) a successful response with non-whitespace text yields
exactly one final delivery, of the trimmed text, with no error; (b) a
non-ok response yields the transcription-failure error
(`TranscriptionFailed`, carrying `errorData.error || 'Transcription
failed'`) and no final delivery; (c) an ok response whose text trims to
empty yields the empty-result error (`EmptyResult`, surfaced as
`'No speech detected in recording'`) and no final delivery. -/
theorem C7_batchResponseOutcomes (chunkSizes : List Nat) (r : HttpResponse)
    (hne : chunkSizes ≠ []) (hsize : 2000 ≤ blobSize chunkSizes) :
    (∀ t, r = .ok t → t ≠ "" → jsTrim t ≠ "" →
      mediaRecorderOnStop true chunkSizes r =
        { error := none, finalTexts := [jsTrim t], httpIssued := true }) ∧
    (∀ e, r = .err e →
      mediaRecorderOnStop true chunkSizes r =
        { error := some (e.getD "Transcription failed"), finalTexts := [],
          httpIssued := true }) ∧
    (∀ t, r = .ok t → jsTrim t = "" →
      mediaRecorderOnStop true chunkSizes r =
        { error := some "No speech detected in recording", finalTexts := [],
          httpIssued := true }) := by
  have hcond : ¬ ((true : Bool) = false ∨ chunkSizes = []) := by
    rintro (h | h)
    · exact absurd h (by simp)
    · exact hne h
  have h2 : ¬ blobSize chunkSizes < 2000 := not_lt.mpr hsize
  refine ⟨?_, ?_, ?_⟩
  · rintro t rfl ht htr
    simp only [mediaRecorderOnStop, if_neg hcond, if_neg h2, respDeliver]
    rw [if_pos ⟨ht, htr⟩]
  · rintro e rfl
    simp only [mediaRecorderOnStop, if_neg hcond, if_neg h2, respDeliver]
  · rintro t rfl htr
    simp only [mediaRecorderOnStop, if_neg hcond, if_neg h2, respDeliver]
    rw [if_neg fun hg => hg.2 htr]

theorem C7_witness :
    (([2500] : List Nat) ≠ [] ∧ 2000 ≤ blobSize [2500]) ∧
    mediaRecorderOnStop true [2500] (.ok " hello world ") =
      { error := none, finalTexts := [jsTrim " hello world "], httpIssued := true } :=
  ⟨⟨by decide, by decide⟩,
   (C7_batchResponseOutcomes [2500] (.ok " hello world ") (by decide)
     (by decide)).1 " hello world " rfl (by decide) (by decide)⟩

/-- C10: every string the batch `onstop` handler passes to the
consumer's transcript callback is trimmed (a fixed point of `jsTrim`)
and nonempty. -/
theorem C10_finalsTrimmedNonempty (hasAudioFlag : Bool) (chunkSizes : List Nat)
    (r : HttpResponse) (t : String)
    (ht : t ∈ (mediaRecorderOnStop hasAudioFlag chunkSizes r).finalTexts) :
    t = jsTrim t ∧ t ≠ "" := by
  simp only [mediaRecorderOnStop] at ht
  split at ht
  · simp at ht
  · split at ht
    · simp at ht
    · cases r with
      | err e => simp [respDeliver] at ht
      | ok text =>
        simp only [respDeliver] at ht
        by_cases hg : text ≠ "" ∧ jsTrim text ≠ ""
        · rw [if_pos hg] at ht
          simp only [List.mem_singleton] at ht
          subst ht
          exact ⟨(jsTrim_idem text).symm, hg.2⟩
        · rw [if_neg hg] at ht
          simp at ht

theorem C10_witness :
    "a b" ∈ (mediaRecorderOnStop true [2500] (.ok " a b ")).finalTexts ∧
    ("a b" = jsTrim "a b" ∧ "a b" ≠ "") :=
  ⟨by decide, C10_finalsTrimmedNonempty true [2500] (.ok " a b ") "a b" (by decide)⟩

/-- A message whose tag is the partial-result tag leaves the delivered
callbacks untouched: the streaming handler only matches
`FinalTranscript`. -/
theorem socketOnMessage_interim (s : StreamDelivered) (m : StreamMsg)
    (hm : m.message_type = "PartialTranscript") : socketOnMessage s m = s := by
  rw [socketOnMessage, if_neg]
  rintro ⟨h1, -⟩
  rw [hm] at h1
  exact absurd h1 (by decide)

/-- Processing any sequence of partial-tagged messages is the identity
on the delivered callbacks. -/
theorem runMessages_interimOnly :
    ∀ (ps : List StreamMsg) (s : StreamDelivered),
      (∀ m ∈ ps, m.message_type = "PartialTranscript") →
      runMessages s ps = s := by
  intro ps
  induction ps with
  | nil => intro s _; rfl
  | cons m ps ih =>
    intro s hp
    rw [runMessages, List.foldl_cons,
        socketOnMessage_interim s m (hp m (List.mem_cons_self m ps))]
    exact ih s fun m' h' => hp m' (List.mem_cons_of_mem _ h')

/-- C3: the accumulated final text grows only through Final events: a
partial-tagged message never mutates the delivered state, and after any
sequence of partial-tagged messages followed by one `FinalTranscript`
with nonempty text, the accumulated final text is exactly the Final
event's text. -/
theorem C3_accumulatedOnlyFinal (ps : List StreamMsg) (t : String)
    (hp : ∀ m ∈ ps, m.message_type = "PartialTranscript") (ht : t ≠ "") :
    (∀ (s : StreamDelivered) (m : StreamMsg),
        m.message_type = "PartialTranscript" → socketOnMessage s m = s) ∧
    runMessages ⟨[], []⟩ (ps ++ [⟨"FinalTranscript", t⟩]) = ⟨[], [t]⟩ := by
  refine ⟨socketOnMessage_interim, ?_⟩
  rw [runMessages, List.foldl_append,
      show List.foldl socketOnMessage (⟨[], []⟩ : StreamDelivered) ps
        = runMessages ⟨[], []⟩ ps from rfl,
      runMessages_interimOnly ps ⟨[], []⟩ hp]
  show socketOnMessage ⟨[], []⟩ ⟨"FinalTranscript", t⟩ = ⟨[], [t]⟩
  rw [socketOnMessage, if_pos ⟨rfl, ht⟩]
  rfl

theorem C3_witness :
    ((∀ m ∈ [(⟨"PartialTranscript", "hel"⟩ : StreamMsg)],
        m.message_type = "PartialTranscript") ∧ ("hi" : String) ≠ "") ∧
    runMessages ⟨[], []⟩
        ([⟨"PartialTranscript", "hel"⟩] ++ [⟨"FinalTranscript", "hi"⟩])
      = ⟨[], ["hi"]⟩ :=
  ⟨⟨by decide, by decide⟩,
   (C3_accumulatedOnlyFinal [⟨"PartialTranscript", "hel"⟩] "hi"
     (by decide) (by decide)).2⟩

/-- The claim C4 scenario: backend sends `PartialTranscript "hel"` then
`FinalTranscript "hello"`. -/
def scenarioMsgs : List StreamMsg :=
  [⟨"PartialTranscript", "hel"⟩, ⟨"FinalTranscript", "hello"⟩]

/-- C4 counterexample: the claim says the consumer receives
`onPartialText("hel")`; in the code `socket.onmessage` ignores
`PartialTranscript` messages entirely (and the streaming variant has no
partial-text callback in its props), so no interim delivery of "hel"
ever happens in this scenario. -/
theorem C4_counterexample :
    ¬ ("hel" ∈ (runMessages ⟨[], []⟩ scenarioMsgs).interimTexts) := by decide

/-- C4 amended: in the scenario the consumer receives no partial-text
callback at all, receives `onTranscript("hello")` as the only delivery,
and the accumulated final text equals "hello". -/
theorem C4_streamScenario :
    runMessages ⟨[], []⟩ scenarioMsgs = ⟨[], ["hello"]⟩ := by decide

/-- Computation of `stopRecording` in explicit form: it sets the recorder inactive,
releases stream and socket, clears the listening flag, and touches
nothing else. -/
theorem stopRecording_eq (s : SessionState) :
    stopRecording s =
      { s with recorderInactive := true, streamLive := false,
               socketLive := false, listening := false } := by
  obtain ⟨ri, sl, so, li, rf, ct, ft, er⟩ := s
  cases ri <;> cases sl <;> cases so <;> rfl

theorem jsTrim_empty : jsTrim "" = "" := rfl

/-- C6: calling `stopRecording` twice in a row, from any state, is
harmless: for the `voice-input.tsx` handler the second call is a
complete no-op (same resulting Idle state), and no call delivers any
callback or sets any error; for the `part_000` handler (which also
finalizes `currentTranscript`) the second call likewise changes nothing
and delivers no further callback. -/
theorem C6_stopTwice (s : SessionState) :
    (stopRecording (stopRecording s) = stopRecording s ∧
      (stopRecording s).finalTexts = s.finalTexts ∧
      (stopRecording s).error = s.error ∧
      (stopRecording s).listening = false) ∧
    (stopRecordingP0 (stopRecordingP0 s) = stopRecordingP0 s ∧
      (stopRecordingP0 (stopRecordingP0 s)).finalTexts
        = (stopRecordingP0 s).finalTexts ∧
      (stopRecordingP0 s).listening = false) := by
  obtain ⟨ri, sl, so, li, rf, ct, ft, er⟩ := s
  constructor
  · simp [stopRecording_eq]
  · by_cases hct : jsTrim ct = ""
    · simp [stopRecordingP0, stopRecording_eq, hct, jsTrim_empty]
    · simp [stopRecordingP0, stopRecording_eq, hct, jsTrim_empty]

/-- The session state of a batch capture whose recording has ended and
whose transcription request is in flight. -/
def inFlightSession : SessionState :=
  { recorderInactive := true, streamLive := true, socketLive := false,
    listening := true, requestInFlight := true, currentTranscript := "",
    finalTexts := [], error := none }

/-- C2 counterexample: `stopCapture` while the batch transcription
request is in flight followed by a successful response still delivers
`onTranscript("hello")` — the claim says a later-arriving response must
never invoke the final-text callback, but `stopRecording` neither
aborts the fetch nor sets any flag the response continuation consults,
so the completion is delivered, not discarded. -/
theorem C2_counterexample :
    (runSession inFlightSession
        [.stopCapture, .respond (.ok "hello")]).finalTexts = ["hello"] := by
  decide

/-- C2 amended: if `stopCapture()` is called while the batch
transcription request is in flight, a later-arriving successful
response with non-whitespace text still invokes the consumer's
final-text callback with the trimmed text: completions arriving after
cancellation are delivered, not discarded. -/
theorem C2_lateResponseDelivered (s : SessionState) (t : String)
    (hin : s.requestInFlight = true) (ht : t ≠ "") (htr : jsTrim t ≠ "") :
    (runSession s [.stopCapture, .respond (.ok t)]).finalTexts
      = s.finalTexts ++ [jsTrim t] := by
  obtain ⟨ri, sl, so, li, rf, ct, ft, er⟩ := s
  simp only at hin
  subst hin
  simp [runSession, sessionStep, stopRecording_eq, resolveResponse,
        respDeliver, ht, htr]

theorem C2_witness :
    (inFlightSession.requestInFlight = true ∧ ("hello" : String) ≠ "" ∧
      jsTrim "hello" ≠ "") ∧
    (runSession inFlightSession [.stopCapture, .respond (.ok "hello")]).finalTexts
      = inFlightSession.finalTexts ++ [jsTrim "hello"] :=
  ⟨⟨rfl, by decide, by decide⟩,
   C2_lateResponseDelivered inFlightSession "hello" rfl (by decide) (by decide)⟩

/-- C9: in the streaming session, every frame transmission is guarded on
the channel being OPEN: from any state in which the transport has
reported Closed/Failed (readyState not OPEN), no sequence of further
events that does not reopen the channel ever sends a frame. -/
theorem C9_noSendAfterClose (s : WsState) (evs : List WsEv)
    (hs : s.readyState ≠ .opened) (hevs : ∀ e ∈ evs, e ≠ WsEv.opens) :
    (runWs s evs).sentSizes = s.sentSizes := by
  induction evs generalizing s with
  | nil => rfl
  | cons e evs ih =>
    have hsent : (wsStep s e).sentSizes = s.sentSizes := by
      cases e with
      | opens => rfl
      | closes => rfl
      | fails => rfl
      | frame n =>
        rw [wsStep, if_neg]
        rintro ⟨-, h2⟩
        exact hs h2
    have hready : (wsStep s e).readyState ≠ .opened := by
      cases e with
      | opens => exact absurd rfl (hevs _ (List.mem_cons_self _ _))
      | closes => simp [wsStep]
      | fails => simp [wsStep]
      | frame n =>
        rw [wsStep]
        split
        · exact hs
        · exact hs
    rw [runWs, List.foldl_cons,
        show List.foldl wsStep (wsStep s e) evs = runWs (wsStep s e) evs from rfl,
        ih (wsStep s e) hready fun e' h' => hevs e' (List.mem_cons_of_mem _ h')]
    exact hsent

theorem C9_witness :
    ((⟨WsReady.closed, [7]⟩ : WsState).readyState ≠ WsReady.opened ∧
      (∀ e ∈ [WsEv.frame 5, WsEv.closes, WsEv.frame 3], e ≠ WsEv.opens)) ∧
    (runWs ⟨WsReady.closed, [7]⟩
        [WsEv.frame 5, WsEv.closes, WsEv.frame 3]).sentSizes = [7] :=
  ⟨⟨by decide, by decide⟩,
   C9_noSendAfterClose ⟨WsReady.closed, [7]⟩
     [WsEv.frame 5, WsEv.closes, WsEv.frame 3] (by decide) (by decide)⟩

/-- Quantization stays within the signed 16-bit range. -/
theorem toPcm16_bounds (x : ℚ) : -32768 ≤ toPcm16 x ∧ toPcm16 x ≤ 32767 := by
  have h1 : (-1 : ℚ) ≤ clampUnit x := le_max_left _ _
  have h2 : clampUnit x ≤ 1 := max_le (by norm_num) (min_le_left _ _)
  constructor
  · show (-32768 : ℤ) ≤ ⌊clampUnit x * 32767⌋
    have hm : (-32767 : ℚ) ≤ clampUnit x * 32767 := by nlinarith
    have := Int.floor_le_floor (α := ℚ) hm
    rw [show ((-32767 : ℚ)) = ((-32767 : ℤ) : ℚ) by norm_num,
        Int.floor_intCast] at this
    omega
  · show ⌊clampUnit x * 32767⌋ ≤ (32767 : ℤ)
    have hm : clampUnit x * 32767 ≤ (32767 : ℚ) := by nlinarith
    have := Int.floor_le_floor (α := ℚ) hm
    rw [show ((32767 : ℚ)) = ((32767 : ℤ) : ℚ) by norm_num,
        Int.floor_intCast] at this
    exact this

/-- C5 (spec-modelled): resampling an input of N samples from 44100 Hz
to 16000 Hz produces exactly `N * 16000 / 44100` output samples, each a
16-bit signed integer in [-32768, 32767], and output index `i` is the
quantization (clamp to ±1.0, scale by 32767) of the input sample at
index `floor(i * 44100 / 16000)`. -/
theorem C5_resampleSpec (input : List ℚ) :
    (resample 44100 16000 input).length = input.length * 16000 / 44100 ∧
    (∀ o ∈ resample 44100 16000 input, -32768 ≤ o ∧ o ≤ 32767) ∧
    (∀ i, i < input.length * 16000 / 44100 →
      (resample 44100 16000 input).getD i 0
        = toPcm16 (input.getD (i * 44100 / 16000) 0)) := by
  refine ⟨?_, ?_, ?_⟩
  · simp [resample]
  · intro o ho
    simp only [resample, List.mem_map] at ho
    obtain ⟨i, -, rfl⟩ := ho
    exact toPcm16_bounds _
  · intro i hi
    simp only [resample]
    rw [List.getD_eq_getElem?_getD, List.getElem?_map, List.getElem?_range hi]
    rfl

theorem C5_witness :
    (0 < [(1 : ℚ)/2, 2, -2].length * 16000 / 44100) ∧
    (resample 44100 16000 [(1 : ℚ)/2, 2, -2]).getD 0 0
      = toPcm16 ([(1 : ℚ)/2, 2, -2].getD (0 * 44100 / 16000) 0) :=
  ⟨by decide, (C5_resampleSpec [(1 : ℚ)/2, 2, -2]).2.2 0 (by decide)⟩
